import Mathlib

/-!
Shallow embedding of the `specialized_turbo` Home Assistant integration:
the BLE frame protocol layer (field registry, frame decoder/encoder,
advertisement matcher, telemetry snapshot) and the coordinator /
diagnostics glue that consumes it.

The repository's `lib/protocol.py` and `lib/models.py` bodies are not in
`src/` (only `lib/__init__.py` re-exporting their names, their callers and
their tests are), so the protocol-layer definitions below are modelled
from the specification's words. Floating-point scaling is modelled as
exact rational arithmetic (the spec declares scale factors to be exact
rationals). The coordinator (`coordinator.py`), config flow
(`config_flow.py`) and diagnostics (`diagnostics.py`) are embedded from
the source.
-/

namespace SpecializedTurbo

/-- Modelled from the spec: byte order of a field definition
(`lib/protocol.py` is missing from src/; spec section 3, "endianness"). -/
inductive Endianness
  | le
  | be
deriving DecidableEq, Repr

/-- Modelled from the spec: the symbolic assist-level enumeration
(0→Off, 1→Eco, 2→Trail, 3→Turbo; spec section 3, FieldDefinition). -/
inductive AssistLevel
  | off
  | eco
  | trail
  | turbo
deriving DecidableEq, Repr

/-- Modelled from the spec: map a raw integer to the symbolic assist level
when known (spec section 3: raw values outside the known set stay raw). -/
def assistLevelOfRaw (n : ℤ) : Option AssistLevel :=
  if n = 0 then some .off
  else if n = 1 then some .eco
  else if n = 2 then some .trail
  else if n = 3 then some .turbo
  else none

/-- Modelled from the spec: a decoded value is either numeric (raw integer
times the scale factor, as an exact rational) or the symbolic assist-level
enumerator (spec sections 4.2 and 9: tagged variant, never an untyped
union). -/
inductive Value
  | num (q : ℚ)
  | sym (a : AssistLevel)
deriving DecidableEq, Repr

/-- Modelled from the spec: immutable field definition keyed by
(Origin, Channel) (spec section 3): name, unit, byte width, scale,
signedness, endianness, and whether the field carries the symbolic
assist-level enum. -/
structure FieldDefinition where
  name : String
  unit : String
  byte_width : Nat
  scale : ℚ
  signed : Bool
  endianness : Endianness
  symbolic : Bool
deriving DecidableEq, Repr

/-- The 16-bit company identifier recognized in BLE advertisement
manufacturer data (spec section 6; test uses key 0x0059). -/
def NORDIC_COMPANY_ID : Nat := 0x0059

/-- The fixed magic byte sequence ("TURBO") that must start the
manufacturer-data value for a positive advertisement match
(spec sections 6 and 8, scenario 5). -/
def ADVERTISING_MAGIC : List Nat := [0x54, 0x55, 0x52, 0x42, 0x4F]

/-- Modelled from the spec: the battery charge-percent field definition,
origin 0x00 channel 0x0C, one unsigned byte, scale 1
(spec section 8, scenario 1). -/
def chargePctDef : FieldDefinition :=
  { name := "charge_pct", unit := "%", byte_width := 1, scale := 1,
    signed := false, endianness := .le, symbolic := false }

/-- Modelled from the spec: the motor speed field definition, origin 0x01
channel 0x02, two bytes little-endian unsigned, scale 0.1
(spec sections 4.2 and 8, scenario 2). -/
def speedKmhDef : FieldDefinition :=
  { name := "speed_kmh", unit := "km/h", byte_width := 2, scale := 1/10,
    signed := false, endianness := .le, symbolic := false }

/-- Modelled from the spec: the field registry's pure, total lookup
`get_field_def(origin, channel) -> optional FieldDefinition`
(spec section 4.1). Only the entries the spec makes visible are included;
the spec marks the rest of the table as externally sourced data
(section 9, open questions). -/
def get_field_def (origin channel : Nat) : Option FieldDefinition :=
  if origin = 0x00 ∧ channel = 0x0C then some chargePctDef
  else if origin = 0x01 ∧ channel = 0x02 then some speedKmhDef
  else none

/-- Modelled from the spec: `all_field_defs()` enumerates the registry
(spec section 4.1). -/
def all_field_defs : List FieldDefinition := [chargePctDef, speedKmhDef]

/-- Little-endian byte composition: first byte is least significant. -/
def fromLEBytes : List Nat → Nat
  | [] => 0
  | b :: rest => b + 256 * fromLEBytes rest

/-- Little-endian byte decomposition of `v` into `w` bytes. -/
def toLEBytes : Nat → Nat → List Nat
  | 0, _ => []
  | w + 1, v => v % 256 :: toLEBytes w (v / 256)

/-- Modelled from the spec: read raw value bytes with the definition's
endianness and signedness into an integer (spec section 4.2, step 4;
two's-complement for signed fields). -/
def extractRaw (fd : FieldDefinition) (valueBytes : List Nat) : ℤ :=
  let u : Nat :=
    match fd.endianness with
    | .le => fromLEBytes valueBytes
    | .be => fromLEBytes valueBytes.reverse
  if fd.signed ∧ 2 ^ (8 * fd.byte_width - 1) ≤ u then
    (u : ℤ) - 2 ^ (8 * fd.byte_width)
  else (u : ℤ)

/-- Modelled from the spec: the decode result (spec section 3,
ParsedMessage); `field_name`, `converted_value` and `unit` are absent when
(origin, channel) has no registry entry. -/
structure ParsedMessage where
  origin : Nat
  channel : Nat
  field_name : Option String
  raw_bytes : List Nat
  converted_value : Option Value
  unit : Option String
deriving DecidableEq, Repr

/-- Modelled from the spec: decode failure taxonomy (spec section 7). -/
inductive ParseError
  | FrameTooShort
deriving DecidableEq, Repr

/-- Modelled from the spec: `parse_message(bytes) -> ParsedMessage`
(spec section 4.2). Fails with `FrameTooShort` below 3 bytes or when the
buffer is shorter than 2 + byte_width for a recognized field; an unknown
(origin, channel) is a success with the optional fields absent. -/
def parse_message (data : List Nat) : Except ParseError ParsedMessage :=
  if data.length < 3 then .error .FrameTooShort
  else
    let origin := data.getD 0 0
    let channel := data.getD 1 0
    match get_field_def origin channel with
    | none =>
        .ok { origin := origin, channel := channel, field_name := none,
              raw_bytes := data.drop 2, converted_value := none, unit := none }
    | some fd =>
        if data.length < 2 + fd.byte_width then .error .FrameTooShort
        else
          let raw := extractRaw fd ((data.drop 2).take fd.byte_width)
          let conv : Value :=
            if fd.symbolic then
              match assistLevelOfRaw raw with
              | some l => .sym l
              | none => .num (raw : ℚ)
            else .num ((raw : ℚ) * fd.scale)
          .ok { origin := origin, channel := channel, field_name := some fd.name,
                raw_bytes := data.drop 2, converted_value := some conv,
                unit := some fd.unit }

/-- Modelled from the spec: the pure request serializer
`build_request(origin, channel, payload) -> bytes` producing
`[origin_byte, channel_byte, ...payload_bytes]` (spec section 4.3; the
body of `lib/protocol.py` is missing from src/, only its re-export in
`lib/__init__.py` is present). -/
def build_request (origin channel : Nat) (payload : Option (List Nat)) : List Nat :=
  origin :: channel :: payload.getD []

/-- Modelled from the spec: the advertisement matcher
`is_specialized_advertisement(manufacturer_data) -> bool`
(spec section 4.4): true iff the mapping holds the known company id and
that value starts with the magic bytes. The manufacturer-data mapping is
embedded as a partial map from company id to bytes. -/
def is_specialized_advertisement (md : Nat → Option (List Nat)) : Bool :=
  match md NORDIC_COMPANY_ID with
  | none => false
  | some v => ADVERTISING_MAGIC.isPrefixOf v

/-- Modelled from the spec: BatteryState (spec section 3); every attribute
starts unknown/absent. Attributes hold a decoded `Value` when observed. -/
structure BatteryState where
  charge_pct : Option Value
  capacity_wh : Option Value
  remaining_wh : Option Value
  health_pct : Option Value
  temp_c : Option Value
  charge_cycles : Option Value
  voltage_v : Option Value
  current_a : Option Value
deriving DecidableEq, Repr

/-- Modelled from the spec: MotorState (spec section 3); `assist_level` is
symbolic or a raw fallback, both covered by `Value`. -/
structure MotorState where
  speed_kmh : Option Value
  rider_power_w : Option Value
  motor_power_w : Option Value
  cadence_rpm : Option Value
  odometer_km : Option Value
  motor_temp_c : Option Value
  assist_level : Option Value
deriving DecidableEq, Repr

/-- Modelled from the spec: BikeSettings (spec section 3). -/
structure BikeSettings where
  assist_lev1_pct : Option Value
  assist_lev2_pct : Option Value
  assist_lev3_pct : Option Value
deriving DecidableEq, Repr

/-- Modelled from the spec: TelemetrySnapshot (spec section 3): three
nested states plus the monotonic received-message counter. -/
structure TelemetrySnapshot where
  battery : BatteryState
  motor : MotorState
  settings : BikeSettings
  message_count : Nat
deriving DecidableEq, Repr

/-- Modelled from the spec: a fresh snapshot has every field unknown and
`message_count` 0 (spec section 3). -/
def TelemetrySnapshot.init : TelemetrySnapshot :=
  { battery := ⟨none, none, none, none, none, none, none, none⟩,
    motor := ⟨none, none, none, none, none, none, none⟩,
    settings := ⟨none, none, none⟩,
    message_count := 0 }

/-- The snapshot attribute names, in the order of spec section 3. -/
def attr_names : List String :=
  ["charge_pct", "capacity_wh", "remaining_wh", "health_pct", "temp_c",
   "charge_cycles", "voltage_v", "current_a",
   "speed_kmh", "rider_power_w", "motor_power_w", "cadence_rpm",
   "odometer_km", "motor_temp_c", "assist_level",
   "assist_lev1_pct", "assist_lev2_pct", "assist_lev3_pct"]

/-- Read a snapshot attribute by field name (`none` for names that are not
snapshot attributes); observation function used to state frame
conditions. -/
def attrValue (s : TelemetrySnapshot) (name : String) : Option Value :=
  match name with
  | "charge_pct" => s.battery.charge_pct
  | "capacity_wh" => s.battery.capacity_wh
  | "remaining_wh" => s.battery.remaining_wh
  | "health_pct" => s.battery.health_pct
  | "temp_c" => s.battery.temp_c
  | "charge_cycles" => s.battery.charge_cycles
  | "voltage_v" => s.battery.voltage_v
  | "current_a" => s.battery.current_a
  | "speed_kmh" => s.motor.speed_kmh
  | "rider_power_w" => s.motor.rider_power_w
  | "motor_power_w" => s.motor.motor_power_w
  | "cadence_rpm" => s.motor.cadence_rpm
  | "odometer_km" => s.motor.odometer_km
  | "motor_temp_c" => s.motor.motor_temp_c
  | "assist_level" => s.motor.assist_level
  | "assist_lev1_pct" => s.settings.assist_lev1_pct
  | "assist_lev2_pct" => s.settings.assist_lev2_pct
  | "assist_lev3_pct" => s.settings.assist_lev3_pct
  | _ => none

/-- Modelled from the spec: dispatch by field name to the matching
attribute of BatteryState, MotorState or BikeSettings and overwrite it
with the decoded value (spec section 4.5); an unmatched name touches
nothing. -/
def applyField (s : TelemetrySnapshot) (name : String) (v : Option Value) :
    TelemetrySnapshot :=
  match name with
  | "charge_pct" => { s with battery := { s.battery with charge_pct := v } }
  | "capacity_wh" => { s with battery := { s.battery with capacity_wh := v } }
  | "remaining_wh" => { s with battery := { s.battery with remaining_wh := v } }
  | "health_pct" => { s with battery := { s.battery with health_pct := v } }
  | "temp_c" => { s with battery := { s.battery with temp_c := v } }
  | "charge_cycles" => { s with battery := { s.battery with charge_cycles := v } }
  | "voltage_v" => { s with battery := { s.battery with voltage_v := v } }
  | "current_a" => { s with battery := { s.battery with current_a := v } }
  | "speed_kmh" => { s with motor := { s.motor with speed_kmh := v } }
  | "rider_power_w" => { s with motor := { s.motor with rider_power_w := v } }
  | "motor_power_w" => { s with motor := { s.motor with motor_power_w := v } }
  | "cadence_rpm" => { s with motor := { s.motor with cadence_rpm := v } }
  | "odometer_km" => { s with motor := { s.motor with odometer_km := v } }
  | "motor_temp_c" => { s with motor := { s.motor with motor_temp_c := v } }
  | "assist_level" => { s with motor := { s.motor with assist_level := v } }
  | "assist_lev1_pct" => { s with settings := { s.settings with assist_lev1_pct := v } }
  | "assist_lev2_pct" => { s with settings := { s.settings with assist_lev2_pct := v } }
  | "assist_lev3_pct" => { s with settings := { s.settings with assist_lev3_pct := v } }
  | _ => s

/-- Modelled from the spec: `update_from_message(msg) -> void`
(spec section 4.5): increment `message_count` by 1 unconditionally, then,
when `field_name` is present, overwrite the named attribute with the
converted value; an absent `field_name` touches no state attribute. -/
def update_from_message (s : TelemetrySnapshot) (msg : ParsedMessage) :
    TelemetrySnapshot :=
  let s := { s with message_count := s.message_count + 1 }
  match msg.field_name with
  | none => s
  | some name => applyField s name msg.converted_value

/-- The BLE client slot of the coordinator, as far as `_needs_poll` and
the disconnect callback can observe it: `self._client` is None, or holds a
client whose `is_connected` is true or false (`coordinator.py`). -/
inductive ClientState
  | absent
  | connected
  | disconnected
deriving DecidableEq, Repr

/-- The coordinator state the notification handler touches
(`coordinator.py`): the owned snapshot and how many updates were pushed to
listeners via `async_set_updated_data`. -/
structure CoordinatorState where
  snapshot : TelemetrySnapshot
  updates_pushed : Nat
deriving DecidableEq, Repr

/-- `SpecializedTurboCoordinator._notification_handler`
(`coordinator.py` lines 125-143): parse the notification; on a parse
error, log and return with no other effect; on success, fold the message
into the snapshot and push an update to listeners. -/
def notification_handler (st : CoordinatorState) (data : List Nat) :
    CoordinatorState :=
  match parse_message data with
  | .error _ => st
  | .ok msg =>
      { snapshot := update_from_message st.snapshot msg,
        updates_pushed := st.updates_pushed + 1 }

/-- `SpecializedTurboCoordinator._needs_poll` (`coordinator.py` lines
65-76): `return self.snapshot.message_count == 0`; the client slot is not
consulted. -/
def needs_poll (snapshot : TelemetrySnapshot) (client : ClientState) : Bool :=
  snapshot.message_count == 0

/-- Modelled from the spec: serialize a raw integer into the value bytes
of a frame, honouring the field definition's byte width and endianness
(spec sections 4.3 and 6; the encoder body is missing from src/). -/
def encodeRaw (fd : FieldDefinition) (raw : Nat) : List Nat :=
  match fd.endianness with
  | .le => toLEBytes fd.byte_width raw
  | .be => (toLEBytes fd.byte_width raw).reverse

/-- `const.py`: the config-entry key holding the pairing PIN. -/
def CONF_PIN : String := "pin"

/-- `diagnostics.py` line 14: `TO_REDACT = {CONF_PIN}`. -/
def TO_REDACT : List String := [CONF_PIN]

/-- A value of the JSON-like diagnostics dictionary: a string, an
integer, null (PIN not set), or the redaction placeholder that
`async_redact_data` substitutes. -/
inductive DiagValue
  | str (s : String)
  | int (i : ℤ)
  | null
  | redacted
deriving DecidableEq, Repr

/-- The config-entry data the diagnostics path reads (`config_flow.py`
stores `CONF_ADDRESS` and `CONF_PIN` in the entry's data). -/
structure ConfigEntry where
  address : String
  pin : Option ℤ
deriving DecidableEq, Repr

/-- The entry's data dictionary as `entry.as_dict()` exposes it to the
diagnostics handler: the address and the optional PIN. -/
def entry_data_dict (e : ConfigEntry) : List (String × DiagValue) :=
  [("address", .str e.address),
   (CONF_PIN, match e.pin with | some p => .int p | none => .null)]

/-- Home Assistant's `async_redact_data` helper as `diagnostics.py` uses
it (external collaborator, modelled by its documented behaviour): replace
the value under every key in `to_redact` with the redaction placeholder,
leaving other entries as they are. -/
def async_redact_data (d : List (String × DiagValue)) (to_redact : List String) :
    List (String × DiagValue) :=
  d.map fun kv => if kv.1 ∈ to_redact then (kv.1, DiagValue.redacted) else kv

/-- The diagnostics payload assembled by
`async_get_config_entry_diagnostics` (`diagnostics.py` lines 17-33): the
redacted entry data and the faithful snapshot section. -/
structure DiagnosticsOutput where
  entry_data : List (String × DiagValue)
  message_count : Nat
  battery : BatteryState
  motor : MotorState
  settings : BikeSettings
deriving DecidableEq, Repr

/-- `diagnostics.py` lines 17-33: redact the entry data with `TO_REDACT`
and report the snapshot's message count, battery, motor and settings. -/
def async_get_config_entry_diagnostics (e : ConfigEntry)
    (snapshot : TelemetrySnapshot) : DiagnosticsOutput :=
  { entry_data := async_redact_data (entry_data_dict e) TO_REDACT,
    message_count := snapshot.message_count,
    battery := snapshot.battery,
    motor := snapshot.motor,
    settings := snapshot.settings }

/-- The parsed message of spec scenario 2 (frame
`[0x01, 0x02, 0xFF, 0x00]`), used as a concrete example input. -/
def exampleSpeedMessage : ParsedMessage :=
  { origin := 1, channel := 2, field_name := some "speed_kmh",
    raw_bytes := [0xFF, 0x00], converted_value := some (.num (51/2)),
    unit := some "km/h" }

/-! ## Helper lemmas -/

theorem applyField_message_count (s : TelemetrySnapshot) (name : String)
    (v : Option Value) : (applyField s name v).message_count = s.message_count := by
  unfold applyField
  split <;> rfl

theorem update_from_message_message_count (s : TelemetrySnapshot)
    (msg : ParsedMessage) :
    (update_from_message s msg).message_count = s.message_count + 1 := by
  unfold update_from_message
  cases msg.field_name with
  | none => rfl
  | some n => simp [applyField_message_count]

theorem toLEBytes_length (w : Nat) : ∀ v : Nat, (toLEBytes w v).length = w := by
  induction w with
  | zero => intro v; rfl
  | succ w ih => intro v; simp [toLEBytes, ih]

theorem fromLEBytes_toLEBytes (w : Nat) :
    ∀ v : Nat, v < 2 ^ (8 * w) → fromLEBytes (toLEBytes w v) = v := by
  induction w with
  | zero =>
      intro v hv
      simp [toLEBytes, fromLEBytes]
      omega
  | succ w ih =>
      intro v hv
      have hpow : (2 : Nat) ^ (8 * (w + 1)) = 2 ^ (8 * w) * 256 := by
        rw [Nat.mul_succ, pow_add]
        norm_num
      have hdiv : v / 256 < 2 ^ (8 * w) := by
        rw [Nat.div_lt_iff_lt_mul (by norm_num : (0:Nat) < 256)]
        omega
      simp only [toLEBytes, fromLEBytes, ih (v / 256) hdiv]
      omega

/-- Decoding a well-formed frame for a registered little-endian unsigned
non-symbolic field recovers the scaled raw value exactly. -/
theorem parse_message_le_unsigned (o c : Nat) (fd : FieldDefinition)
    (hdef : get_field_def o c = some fd)
    (hle : fd.endianness = Endianness.le)
    (hsig : fd.signed = false) (hsym : fd.symbolic = false)
    (hw : 1 ≤ fd.byte_width)
    (raw : Nat) (hraw : raw < 2 ^ (8 * fd.byte_width)) :
    parse_message (o :: c :: toLEBytes fd.byte_width raw) = .ok
      { origin := o, channel := c, field_name := some fd.name,
        raw_bytes := toLEBytes fd.byte_width raw,
        converted_value := some (.num ((raw : ℚ) * fd.scale)),
        unit := some fd.unit } := by
  have hlen : (o :: c :: toLEBytes fd.byte_width raw).length =
      2 + fd.byte_width := by
    simp [toLEBytes_length]
    omega
  have hlt : ¬ (o :: c :: toLEBytes fd.byte_width raw).length < 3 := by
    omega
  have hlt2 : ¬ (o :: c :: toLEBytes fd.byte_width raw).length <
      2 + fd.byte_width := by
    omega
  have htake : (toLEBytes fd.byte_width raw).take fd.byte_width =
      toLEBytes fd.byte_width raw :=
    List.take_of_length_le (by simp [toLEBytes_length])
  have hextract : extractRaw fd (toLEBytes fd.byte_width raw) = (raw : ℤ) := by
    unfold extractRaw
    rw [hle]
    simp [hsig, fromLEBytes_toLEBytes fd.byte_width raw hraw]
  unfold parse_message
  rw [if_neg hlt]
  simp only [List.getD_eq_getElem?_getD, List.getElem?_cons_zero,
    List.getElem?_cons_succ, Option.getD_some, hdef]
  rw [if_neg hlt2]
  simp [List.drop, htake, hextract, hsym]

theorem parse_message_short (buf : List Nat) (h : buf.length < 3) :
    parse_message buf = .error .FrameTooShort := by
  unfold parse_message
  simp [h]

theorem attrValue_message_count_bump (s : TelemetrySnapshot) (n : Nat) :
    ∀ name ∈ attr_names,
      attrValue { s with message_count := n } name = attrValue s name := by
  intro name hname
  fin_cases hname <;> rfl

theorem attrValue_applyField_self (s : TelemetrySnapshot) (v : Option Value) :
    ∀ name ∈ attr_names, attrValue (applyField s name v) name = v := by
  intro name hname
  fin_cases hname <;> rfl

set_option maxHeartbeats 2000000 in
theorem attrValue_applyField_of_ne (s : TelemetrySnapshot) (v : Option Value) :
    ∀ name ∈ attr_names, ∀ other : String, other ≠ name →
      attrValue (applyField s other v) name = attrValue s name := by
  intro name hname other hne
  unfold applyField
  split
  all_goals fin_cases hname <;> first | rfl | simp_all

/-! ## Claims -/

/-- C1: for every byte buffer with fewer than 3 bytes, `parse_message`
fails with `FrameTooShort`, and the coordinator's notification handler
discards the frame atomically: the whole coordinator state — the
snapshot's `message_count`, every snapshot field, and the count of
updates pushed to listeners — is left exactly as it was. -/
theorem short_frame_fails_and_is_discarded (buf : List Nat)
    (h : buf.length < 3) :
    parse_message buf = .error .FrameTooShort ∧
    ∀ st : CoordinatorState, notification_handler st buf = st := by
  refine ⟨parse_message_short buf h, fun st => ?_⟩
  unfold notification_handler
  rw [parse_message_short buf h]

/-- Witness for C1 at the concrete one-byte buffer `[0x00]` of the test
`test_notification_handler_parse_error`. -/
theorem short_frame_fails_and_is_discarded_witness :
    parse_message [0x00] = .error .FrameTooShort ∧
    notification_handler ⟨TelemetrySnapshot.init, 0⟩ [0x00] =
      ⟨TelemetrySnapshot.init, 0⟩ :=
  ⟨(short_frame_fails_and_is_discarded [0x00] (by decide)).1,
   (short_frame_fails_and_is_discarded [0x00] (by decide)).2 _⟩

/-- C2: a fresh snapshot's `message_count` is 0, and every call to
`update_from_message` increments it by exactly one — for recognized and
unrecognized messages alike — so no update ever decrements or resets it
(`update_from_message` is the snapshot's only mutator in the model). -/
theorem message_count_zero_init_and_increments_by_one :
    TelemetrySnapshot.init.message_count = 0 ∧
    ∀ (s : TelemetrySnapshot) (msg : ParsedMessage),
      (update_from_message s msg).message_count = s.message_count + 1 :=
  ⟨rfl, update_from_message_message_count⟩

/-- C3: a structurally valid frame (at least 3 bytes) whose
(origin, channel) pair has no registry entry parses successfully with
`field_name`, `converted_value` and `unit` absent, and feeding the result
to `update_from_message` increments `message_count` while leaving every
snapshot state attribute (battery, motor, settings) untouched. -/
theorem unknown_pair_parses_and_only_counts (buf : List Nat)
    (h3 : 3 ≤ buf.length)
    (hdef : get_field_def (buf.getD 0 0) (buf.getD 1 0) = none) :
    parse_message buf = .ok
      { origin := buf.getD 0 0, channel := buf.getD 1 0, field_name := none,
        raw_bytes := buf.drop 2, converted_value := none, unit := none } ∧
    ∀ (s : TelemetrySnapshot) (msg : ParsedMessage),
      parse_message buf = .ok msg →
      update_from_message s msg =
        { s with message_count := s.message_count + 1 } := by
  have hlt : ¬ buf.length < 3 := by omega
  have hp : parse_message buf = .ok
      { origin := buf.getD 0 0, channel := buf.getD 1 0, field_name := none,
        raw_bytes := buf.drop 2, converted_value := none, unit := none } := by
    unfold parse_message
    simp only [List.getD_eq_getElem?_getD] at hdef
    simp [hlt, hdef]
  refine ⟨hp, fun s msg hm => ?_⟩
  rw [hp] at hm
  injection hm with hm
  subst hm
  rfl

/-- Witness for C3 at the unknown-origin frame `[0x03, 0x00, 0x42]` of
spec scenario 4 and `test_notification_handler_unknown_field`. -/
theorem unknown_pair_parses_and_only_counts_witness :
    parse_message [0x03, 0x00, 0x42] = .ok
      { origin := 3, channel := 0, field_name := none, raw_bytes := [0x42],
        converted_value := none, unit := none } ∧
    update_from_message TelemetrySnapshot.init
        { origin := 3, channel := 0, field_name := none, raw_bytes := [0x42],
          converted_value := none, unit := none } =
      { TelemetrySnapshot.init with message_count := 1 } :=
  ⟨(unknown_pair_parses_and_only_counts [0x03, 0x00, 0x42] (by decide)
      (by decide)).1,
   (unknown_pair_parses_and_only_counts [0x03, 0x00, 0x42] (by decide)
      (by decide)).2 TelemetrySnapshot.init _
     (unknown_pair_parses_and_only_counts [0x03, 0x00, 0x42] (by decide)
       (by decide)).1⟩

/-- C4: the concrete frame `[0x01, 0x02, 0xFF, 0x00]` — a 2-byte
little-endian unsigned field with scale 0.1 and raw value 255 — decodes
with the declared byte order and signedness, and updating a fresh
snapshot with it sets `motor.speed_kmh` to 51/2 (= 25.5) and
`message_count` to 1. -/
theorem speed_frame_sets_25_5 :
    parse_message [0x01, 0x02, 0xFF, 0x00] = .ok
      { origin := 1, channel := 2, field_name := some "speed_kmh",
        raw_bytes := [0xFF, 0x00],
        converted_value := some (.num (51/2)), unit := some "km/h" } ∧
    (update_from_message TelemetrySnapshot.init
        { origin := 1, channel := 2, field_name := some "speed_kmh",
          raw_bytes := [0xFF, 0x00],
          converted_value := some (.num (51/2)),
          unit := some "km/h" }).motor.speed_kmh = some (.num (51/2)) ∧
    (update_from_message TelemetrySnapshot.init
        { origin := 1, channel := 2, field_name := some "speed_kmh",
          raw_bytes := [0xFF, 0x00],
          converted_value := some (.num (51/2)),
          unit := some "km/h" }).message_count = 1 := by
  have hval : ((255 : ℤ) : ℚ) * (1/10 : ℚ) = 51/2 := by norm_num
  refine ⟨?_, rfl, rfl⟩
  rw [← hval]
  rfl

/-- C5: `is_specialized_advertisement` is true iff the manufacturer-data
mapping holds the known company id as a key with a value starting with
the magic byte sequence; it is false when the key is absent, false in
particular on the empty mapping, and — being a total function — never
raises. -/
theorem advertisement_match_iff :
    (∀ md : Nat → Option (List Nat),
      (is_specialized_advertisement md = true ↔
        ∃ v, md NORDIC_COMPANY_ID = some v ∧
          ADVERTISING_MAGIC.isPrefixOf v = true)) ∧
    (∀ md : Nat → Option (List Nat),
      md NORDIC_COMPANY_ID = none → is_specialized_advertisement md = false) ∧
    is_specialized_advertisement (fun _ => none) = false := by
  refine ⟨fun md => ?_, fun md h => ?_, rfl⟩
  · cases h : md NORDIC_COMPANY_ID with
    | none => simp [is_specialized_advertisement, h]
    | some v => simp [is_specialized_advertisement, h]
  · simp [is_specialized_advertisement, h]

/-- C6: `update_from_message` writes only the single attribute named by
the message's `field_name`, overwriting it with the message's converted
value (the symbolic assist-level value travels inside `Value`); every
other attribute of BatteryState, MotorState and BikeSettings keeps its
previous value, and a message with `field_name` absent leaves every state
attribute unchanged (only the counter advances). -/
theorem update_writes_only_named_attribute (s : TelemetrySnapshot)
    (msg : ParsedMessage) (name : String) (hname : name ∈ attr_names) :
    (msg.field_name = none →
      update_from_message s msg =
        { s with message_count := s.message_count + 1 }) ∧
    (msg.field_name ≠ some name →
      attrValue (update_from_message s msg) name = attrValue s name) ∧
    (msg.field_name = some name →
      attrValue (update_from_message s msg) name = msg.converted_value) := by
  refine ⟨fun h => ?_, fun h => ?_, fun h => ?_⟩
  · unfold update_from_message
    rw [h]
  · unfold update_from_message
    cases hf : msg.field_name with
    | none => exact attrValue_message_count_bump s _ name hname
    | some other =>
        have hne : other ≠ name := fun e => h (by rw [hf, e])
        rw [attrValue_applyField_of_ne _ _ name hname other hne]
        exact attrValue_message_count_bump s _ name hname
  · unfold update_from_message
    rw [h]
    exact attrValue_applyField_self _ _ name hname

/-- Witness for C6 at the speed message on a fresh snapshot, with the
attribute name `speed_kmh`. -/
theorem update_writes_only_named_attribute_witness :
    (exampleSpeedMessage.field_name = none →
      update_from_message TelemetrySnapshot.init exampleSpeedMessage =
        { TelemetrySnapshot.init with
            message_count := TelemetrySnapshot.init.message_count + 1 }) ∧
    (exampleSpeedMessage.field_name ≠ some "speed_kmh" →
      attrValue (update_from_message TelemetrySnapshot.init
          exampleSpeedMessage) "speed_kmh" =
        attrValue TelemetrySnapshot.init "speed_kmh") ∧
    (exampleSpeedMessage.field_name = some "speed_kmh" →
      attrValue (update_from_message TelemetrySnapshot.init
          exampleSpeedMessage) "speed_kmh" =
        exampleSpeedMessage.converted_value) :=
  update_writes_only_named_attribute TelemetrySnapshot.init
    exampleSpeedMessage "speed_kmh" (by simp [attr_names])

/-- C8: `build_request` is a pure serializer: with a payload it returns
exactly `[origin, channel, ...payload]`, and with the payload absent it
returns exactly the two header bytes. -/
theorem build_request_layout :
    ∀ (origin channel : Nat) (payload : List Nat),
      build_request origin channel (some payload) =
        origin :: channel :: payload ∧
      build_request origin channel none = [origin, channel] :=
  fun _ _ _ => ⟨rfl, rfl⟩

/-- C7: for every (origin, channel) pair present in the registry and
every raw integer fitting the field's declared byte width, encoding the
raw value into a request frame with the declared width and endianness and
decoding it with `parse_message` yields a `converted_value` equal to
raw × scale, and dividing that by the scale recovers the original raw
integer exactly (scaling is exact rational arithmetic in the model). -/
theorem registry_round_trip (o c : Nat) (fd : FieldDefinition)
    (hdef : get_field_def o c = some fd)
    (raw : Nat) (hraw : raw < 2 ^ (8 * fd.byte_width)) :
    parse_message (build_request o c (some (encodeRaw fd raw))) = .ok
      { origin := o, channel := c, field_name := some fd.name,
        raw_bytes := encodeRaw fd raw,
        converted_value := some (.num ((raw : ℚ) * fd.scale)),
        unit := some fd.unit } ∧
    ((raw : ℚ) * fd.scale) / fd.scale = (raw : ℚ) := by
  have hcases : (o = 0x00 ∧ c = 0x0C ∧ fd = chargePctDef) ∨
      (o = 0x01 ∧ c = 0x02 ∧ fd = speedKmhDef) := by
    unfold get_field_def at hdef
    split at hdef
    · left
      injection hdef with h
      exact ⟨by omega, by omega, h.symm⟩
    · split at hdef
      · right
        injection hdef with h
        exact ⟨by omega, by omega, h.symm⟩
      · cases hdef
  rcases hcases with ⟨ho, hc, hfd⟩ | ⟨ho, hc, hfd⟩ <;> subst ho hc hfd
  · refine ⟨?_, ?_⟩
    · have := parse_message_le_unsigned 0x00 0x0C chargePctDef rfl
        rfl rfl rfl (by decide) raw hraw
      simpa [build_request, encodeRaw, chargePctDef] using this
    · simp [chargePctDef]
  · refine ⟨?_, ?_⟩
    · have := parse_message_le_unsigned 0x01 0x02 speedKmhDef rfl
        rfl rfl rfl (by decide) raw hraw
      simpa [build_request, encodeRaw, speedKmhDef] using this
    · rw [mul_div_cancel_right₀ (raw : ℚ)
        (by norm_num [speedKmhDef] : speedKmhDef.scale ≠ 0)]

/-- Witness for C7 at the registered speed field (origin 0x01, channel
0x02) and raw value 255. -/
theorem registry_round_trip_witness :
    parse_message (build_request 0x01 0x02
        (some (encodeRaw speedKmhDef 255))) = .ok
      { origin := 0x01, channel := 0x02,
        field_name := some speedKmhDef.name,
        raw_bytes := encodeRaw speedKmhDef 255,
        converted_value :=
          some (.num (((255 : Nat) : ℚ) * speedKmhDef.scale)),
        unit := some speedKmhDef.unit } ∧
    (((255 : Nat) : ℚ) * speedKmhDef.scale) / speedKmhDef.scale =
      ((255 : Nat) : ℚ) :=
  registry_round_trip 0x01 0x02 speedKmhDef rfl 255 (by decide)

/-- C9: `_needs_poll` is true iff the snapshot's `message_count` is 0; it
does not consult the client slot at all (absent, connected or
disconnected clients give the same answer), so once any message has been
received it stays false even after the client disconnects. -/
theorem needs_poll_iff_message_count_zero :
    ∀ (s : TelemetrySnapshot) (c c' : ClientState),
      (needs_poll s c = true ↔ s.message_count = 0) ∧
      needs_poll s c = needs_poll s c' ∧
      (0 < s.message_count →
        needs_poll s ClientState.disconnected = false) := by
  intro s c c'
  refine ⟨?_, rfl, fun h => ?_⟩
  · simp [needs_poll]
  · simp [needs_poll]
    omega

/-- C10: diagnostics replaces the entry's PIN value with the redaction
placeholder, so the output is identical for any two entries differing
only in PIN (the PIN never flows to the output), while the snapshot
section faithfully reports `message_count` and the battery, motor and
settings states. -/
theorem diagnostics_redact_pin_and_report_snapshot
    (e₁ e₂ : ConfigEntry) (s : TelemetrySnapshot)
    (haddr : e₁.address = e₂.address) :
    async_get_config_entry_diagnostics e₁ s =
      async_get_config_entry_diagnostics e₂ s ∧
    (async_get_config_entry_diagnostics e₁ s).entry_data =
      [("address", DiagValue.str e₁.address),
       (CONF_PIN, DiagValue.redacted)] ∧
    (async_get_config_entry_diagnostics e₁ s).message_count =
      s.message_count ∧
    (async_get_config_entry_diagnostics e₁ s).battery = s.battery ∧
    (async_get_config_entry_diagnostics e₁ s).motor = s.motor ∧
    (async_get_config_entry_diagnostics e₁ s).settings = s.settings := by
  have hdata : ∀ e : ConfigEntry,
      async_redact_data (entry_data_dict e) TO_REDACT =
        [("address", DiagValue.str e.address),
         (CONF_PIN, DiagValue.redacted)] := by
    intro e
    simp [async_redact_data, entry_data_dict, TO_REDACT, CONF_PIN]
  refine ⟨?_, hdata e₁, rfl, rfl, rfl, rfl⟩
  unfold async_get_config_entry_diagnostics
  rw [hdata e₁, hdata e₂, haddr]

/-- Witness for C10: two entries with the same address whose PINs differ
(1234 vs 9999) produce identical diagnostics on a fresh snapshot. -/
theorem diagnostics_redact_pin_witness :
    async_get_config_entry_diagnostics ⟨"aa:bb:cc:dd:ee:ff", some 1234⟩
        TelemetrySnapshot.init =
      async_get_config_entry_diagnostics ⟨"aa:bb:cc:dd:ee:ff", some 9999⟩
        TelemetrySnapshot.init ∧
    (async_get_config_entry_diagnostics ⟨"aa:bb:cc:dd:ee:ff", some 1234⟩
        TelemetrySnapshot.init).entry_data =
      [("address", DiagValue.str "aa:bb:cc:dd:ee:ff"),
       (CONF_PIN, DiagValue.redacted)] :=
  ⟨(diagnostics_redact_pin_and_report_snapshot
      ⟨"aa:bb:cc:dd:ee:ff", some 1234⟩ ⟨"aa:bb:cc:dd:ee:ff", some 9999⟩
      TelemetrySnapshot.init rfl).1,
   (diagnostics_redact_pin_and_report_snapshot
      ⟨"aa:bb:cc:dd:ee:ff", some 1234⟩ ⟨"aa:bb:cc:dd:ee:ff", some 9999⟩
      TelemetrySnapshot.init rfl).2.1⟩

end SpecializedTurbo

